import Mathlib

/-!
Shallow embedding of the `broker` package of `cf-broker-proxy`
(src/unnamed/part_000) together with the request-assembly fragment of the
vendored ccv2 client that the broker invokes
(src/vendor/code.cloudfoundry.org/cli/api/cloudcontroller/ccv2/service_key.go).

Modelling conventions:
* Go strings are Lean `String`s; `len` and byte slicing `s[:254]` become
  character-sequence length and `List.take` on `String.data`.
* `map[string]interface{}` (schemaless JSON values) becomes an association
  list over the inductive `JVal` of JSON-like values.
* Go's `(value, warnings, err)` returns become `Except String value`; the
  broker blanks every `warnings` result, so warnings are dropped.
* The ccv2 client is an oracle environment `APIClient` of pure functions,
  one per client method the broker calls; every broker operation returns,
  next to its result and updated receiver state, the list of client calls it
  issued (`List APICall`), so that "issues no fetch / no mutating call"
  claims are statable.
* `CFBrokerProxy`'s unused fields (`InstanceCreators`, `InstanceBinders`,
  `Logger`) are omitted; the `APIClient` handle is passed explicitly to each
  method instead of being a field, and the mutable fields `Catalog` (a Go
  nil-able slice, hence `Option`) and `SpaceGUID` form the receiver state.
-/

/-- JSON-like values, modelling Go `interface{}` as used in the schemaless
`map[string]interface{}` credential and parameter mappings. -/
inductive JVal where
  | str : String → JVal
  | num : Int → JVal
  | jbool : Bool → JVal
  | null : JVal
  | arr : List JVal → JVal
  | obj : List (String × JVal) → JVal

/-- Schemaless string-keyed mapping (`map[string]interface{}`). -/
abbrev JMap := List (String × JVal)

namespace ccv2

/-- ccv2.Filter: a control-API query filter descriptor (the Go field `Type`
is written `FType`, `Type` being a Lean keyword). -/
structure Filter where
  FType : String
  Operator : String
  Values : List String
deriving DecidableEq

/-- ccv2.Service (fields used by the broker). -/
structure Service where
  GUID : String
  Label : String
  Description : String

/-- ccv2.ServicePlan. -/
structure ServicePlan where
  GUID : String
  Name : String
  ServiceGUID : String
  Public : Bool
  Description : String

/-- ccv2.ServiceInstance.LastOperation (fields used by the broker). -/
structure LastOperation where
  State : String
  Description : String

/-- ccv2.ServiceInstance (fields used by the broker). -/
structure ServiceInstance where
  GUID : String
  Name : String
  DashboardURL : String
  LastOperation : LastOperation

/-- ccv2.Space (field used by the broker). -/
structure Space where
  GUID : String

/-- ccv2.ServiceKey. -/
structure ServiceKey where
  GUID : String
  Name : String
  ServiceInstanceGUID : String
  Credentials : JMap

end ccv2

/-- Modelled from the spec: the ccv2 `constant.LastOperationInProgress`
state value, written `"in progress"`; the constant package's defining file is
not among the sources, and the spec describes the comparison as `instance in
"in-progress" state`. -/
def LastOperationInProgress : String := "in progress"

namespace brokerapi

/-- brokerapi.ServicePlan (fields assembled by the broker). -/
structure ServicePlan where
  ID : String
  Name : String
  Description : String

/-- brokerapi.Service (fields assembled by the broker). -/
structure Service where
  ID : String
  Name : String
  Description : String
  Bindable : Bool
  PlanUpdatable : Bool
  Plans : List ServicePlan

/-- brokerapi.ProvisionDetails (field used by the broker). -/
structure ProvisionDetails where
  PlanID : String

/-- brokerapi.ProvisionedServiceSpec. -/
structure ProvisionedServiceSpec where
  DashboardURL : String
  IsAsync : Bool
  OperationData : String

/-- brokerapi.DeprovisionDetails (unused by the broker's code). -/
structure DeprovisionDetails where

/-- brokerapi.DeprovisionServiceSpec. -/
structure DeprovisionServiceSpec where
  IsAsync : Bool
  OperationData : String

/-- brokerapi.BindDetails (unused by the broker's code). -/
structure BindDetails where

/-- brokerapi.Binding (field assembled by the broker). -/
structure Binding where
  Credentials : JMap

/-- brokerapi.UnbindDetails (unused by the broker's code). -/
structure UnbindDetails where

/-- brokerapi.UpdateDetails (unused by the broker's code). -/
structure UpdateDetails where

/-- brokerapi.UpdateServiceSpec. -/
structure UpdateServiceSpec where
  IsAsync : Bool
  OperationData : String

end brokerapi

/-- One control-API client call, as recorded in a broker operation's trace. -/
inductive APICall where
  | getServices : APICall
  | getServicePlans : ccv2.Filter → APICall
  | getSpaces : APICall
  | createServiceInstance : String → String → String → Bool → JMap → APICall
  | deleteServiceInstance : String → Bool → APICall
  | getServiceInstances : ccv2.Filter → APICall
  | createServiceKey : String → String → Bool → JMap → APICall
  | getServiceKeys : ccv2.Filter → APICall
  | deleteServiceKey : String → Bool → APICall
  | getServiceInstance : String → APICall

/-- The control-API client as a pure oracle: one field per ccv2 client
method the broker calls, each returning the Go `(result, err)` pair as an
`Except`. -/
structure APIClient where
  GetServices : Except String (List ccv2.Service)
  GetServicePlans : ccv2.Filter → Except String (List ccv2.ServicePlan)
  GetSpaces : Except String (List ccv2.Space)
  CreateServiceInstance : String → String → String → Bool → JMap →
    Except String ccv2.ServiceInstance
  DeleteServiceInstance : String → Bool → Except String ccv2.ServiceInstance
  GetServiceInstances : ccv2.Filter → Except String (List ccv2.ServiceInstance)
  CreateServiceKey : String → String → Bool → JMap → Except String ccv2.ServiceKey
  GetServiceKeys : ccv2.Filter → Except String (List ccv2.ServiceKey)
  DeleteServiceKey : String → Bool → Except String ccv2.ServiceKey
  GetServiceInstance : String → Except String ccv2.ServiceInstance

/-- CFBrokerProxy's mutable receiver state: the catalog cache (a nil-able Go
slice, so `Option`) and the deployment-space cache (`""` = unset, as in Go). -/
structure CFBrokerProxy where
  Catalog : Option (List brokerapi.Service)
  SpaceGUID : String

/-- `sliceDescription`: truncate a description to its first 254 characters
(Go slices the first 254 bytes of the string; the byte sequence is modelled
as the character sequence `String.data`). -/
def sliceDescription (original : String) : String :=
  if original.length > 254 then String.mk (original.data.take 254)
  else original

/-- `(broker *CFBrokerProxy) getServicePlans`: fetch the plans filtered by
`service_guid`, ignoring any fetch error (the Go code blanks it, `// TODO if
err`, and a failed `GetServicePlans` returns a nil slice), and map each plan
to a `brokerapi.ServicePlan` with truncated description. Also returns the
call trace. -/
def CFBrokerProxy.getServicePlans (client : APIClient) (serviceGUID : String) :
    List brokerapi.ServicePlan × List APICall :=
  let filter : ccv2.Filter := { FType := "service_guid", Operator := ":", Values := [serviceGUID] }
  let servicePlans : List ccv2.ServicePlan :=
    match client.GetServicePlans filter with
    | .error _ => []
    | .ok l => l
  (servicePlans.map fun p =>
    { ID := p.GUID, Name := p.Name, Description := sliceDescription p.Description },
   [APICall.getServicePlans filter])

/-- `(broker *CFBrokerProxy) Services` (ListCatalog): return the cached
catalog if present; else fetch all services, assemble an entry per service
with truncated description and its fetched plans, cache and return the list.
Returns (result, updated receiver, call trace). -/
def CFBrokerProxy.Services (client : APIClient) (broker : CFBrokerProxy) :
    Except String (List brokerapi.Service) × CFBrokerProxy × List APICall :=
  match broker.Catalog with
  | some catalog => (.ok catalog, broker, [])
  | none =>
    match client.GetServices with
    | .error err => (.error err, broker, [APICall.getServices])
    | .ok services =>
      let serviceList : List brokerapi.Service := services.map fun s =>
        { ID := s.GUID
          Name := s.Label
          Description := sliceDescription s.Description
          Bindable := true
          PlanUpdatable := false
          Plans := (CFBrokerProxy.getServicePlans client s.GUID).1 }
      (.ok serviceList,
       { broker with Catalog := some serviceList },
       APICall.getServices ::
         services.flatMap fun s => (CFBrokerProxy.getServicePlans client s.GUID).2)

/-- `(broker *CFBrokerProxy) Provision`: resolve the deployment space (fetch
available spaces, take the first, cache its GUID) when `SpaceGUID` is still
`""`, failing when the fetch fails or no space exists; then create a service
instance named `instanceID` under the resolved space and the requested plan
with empty parameters, and map the created instance to the returned spec. -/
def CFBrokerProxy.Provision (client : APIClient) (broker : CFBrokerProxy)
    (instanceID : String) (serviceDetails : brokerapi.ProvisionDetails)
    (asyncAllowed : Bool) :
    Except String brokerapi.ProvisionedServiceSpec × CFBrokerProxy × List APICall :=
  if broker.SpaceGUID == "" then
    match client.GetSpaces with
    | .error err => (.error err, broker, [APICall.getSpaces])
    | .ok availableSpace =>
      match availableSpace with
      | [] => (.error "Available spaces not found", broker, [APICall.getSpaces])
      | space0 :: _ =>
        let broker := { broker with SpaceGUID := space0.GUID }
        let createCall :=
          APICall.createServiceInstance instanceID serviceDetails.PlanID broker.SpaceGUID
            asyncAllowed []
        match client.CreateServiceInstance instanceID serviceDetails.PlanID broker.SpaceGUID
            asyncAllowed [] with
        | .error err => (.error err, broker, [APICall.getSpaces, createCall])
        | .ok serviceInstance =>
          (.ok { DashboardURL := serviceInstance.DashboardURL
                 IsAsync := serviceInstance.LastOperation.State == LastOperationInProgress
                 OperationData := serviceInstance.GUID },
           broker, [APICall.getSpaces, createCall])
  else
    let createCall :=
      APICall.createServiceInstance instanceID serviceDetails.PlanID broker.SpaceGUID
        asyncAllowed []
    match client.CreateServiceInstance instanceID serviceDetails.PlanID broker.SpaceGUID
        asyncAllowed [] with
    | .error err => (.error err, broker, [createCall])
    | .ok serviceInstance =>
      (.ok { DashboardURL := serviceInstance.DashboardURL
             IsAsync := serviceInstance.LastOperation.State == LastOperationInProgress
             OperationData := serviceInstance.GUID },
       broker, [createCall])

/-- `(broker *CFBrokerProxy) findFirstServiceInstanceWithName`: fetch the
service instances with an exact-match `name` filter; a fetch error is
propagated, zero matches is a not-found error, otherwise the first match is
returned. Also returns the call trace. -/
def CFBrokerProxy.findFirstServiceInstanceWithName (client : APIClient)
    (serviceInstanceName : String) :
    Except String ccv2.ServiceInstance × List APICall :=
  let filter : ccv2.Filter := { FType := "name", Operator := ":", Values := [serviceInstanceName] }
  (match client.GetServiceInstances filter with
   | .error err => .error err
   | .ok serviceInstances =>
     match serviceInstances with
     | [] => .error ("Service instance with name " ++ serviceInstanceName ++ " not found")
     | first :: _ => .ok first,
   [APICall.getServiceInstances filter])

/-- `(broker *CFBrokerProxy) Deprovision`: resolve the instance by name
(propagating lookup failure without any further call), then delete it by GUID
requesting asynchronous completion, mapping the deleted-instance record to
the returned spec. The receiver is not mutated, so only (result, trace) is
returned. -/
def CFBrokerProxy.Deprovision (client : APIClient) (broker : CFBrokerProxy)
    (instanceID : String) (details : brokerapi.DeprovisionDetails) (asyncAllowed : Bool) :
    Except String brokerapi.DeprovisionServiceSpec × List APICall :=
  match CFBrokerProxy.findFirstServiceInstanceWithName client instanceID with
  | (.error err, lookupCalls) => (.error err, lookupCalls)
  | (.ok firstInstance, lookupCalls) =>
    let deleteCall := APICall.deleteServiceInstance firstInstance.GUID true
    match client.DeleteServiceInstance firstInstance.GUID true with
    | .error err => (.error err, lookupCalls ++ [deleteCall])
    | .ok instanceToDelete =>
      (.ok { IsAsync := instanceToDelete.LastOperation.State == LastOperationInProgress
             OperationData := instanceToDelete.GUID },
       lookupCalls ++ [deleteCall])

/-- `(broker *CFBrokerProxy) Bind`: resolve the instance by name (propagating
lookup failure without any further call), then create a service key named
`bindingID` on it, with `acceptsIncomplete = true` and empty parameters, and
return the created key's credentials. -/
def CFBrokerProxy.Bind (client : APIClient) (broker : CFBrokerProxy)
    (instanceID bindingID : String) (details : brokerapi.BindDetails) :
    Except String brokerapi.Binding × List APICall :=
  match CFBrokerProxy.findFirstServiceInstanceWithName client instanceID with
  | (.error err, lookupCalls) => (.error err, lookupCalls)
  | (.ok firstInstance, lookupCalls) =>
    let createCall := APICall.createServiceKey firstInstance.GUID bindingID true []
    match client.CreateServiceKey firstInstance.GUID bindingID true [] with
    | .error err => (.error err, lookupCalls ++ [createCall])
    | .ok serviceKey =>
      (.ok { Credentials := serviceKey.Credentials }, lookupCalls ++ [createCall])

/-- `(broker *CFBrokerProxy) Unbind`: fetch the service keys with an
exact-match `name = bindingID` filter (not scoped to the instance; the
`instanceID` argument is unused), propagate a fetch error, fail when zero
keys match, else delete the first match with `acceptsIncomplete = false`. -/
def CFBrokerProxy.Unbind (client : APIClient) (broker : CFBrokerProxy)
    (instanceID bindingID : String) (details : brokerapi.UnbindDetails) :
    Except String Unit × List APICall :=
  let filter : ccv2.Filter := { FType := "name", Operator := ":", Values := [bindingID] }
  match client.GetServiceKeys filter with
  | .error err => (.error err, [APICall.getServiceKeys filter])
  | .ok serviceKeys =>
    match serviceKeys with
    | [] => (.error ("Service key '" ++ bindingID ++ "' not found"),
             [APICall.getServiceKeys filter])
    | key0 :: _ =>
      let deleteCall := APICall.deleteServiceKey key0.GUID false
      match client.DeleteServiceKey key0.GUID false with
      | .error err => (.error err, [APICall.getServiceKeys filter, deleteCall])
      | .ok _ => (.ok (), [APICall.getServiceKeys filter, deleteCall])

/-- `(broker *CFBrokerProxy) LastOperation`: fetch the instance directly by
GUID (`operationData`), mapping its last-operation state and description. -/
def CFBrokerProxy.LastOperation (client : APIClient) (broker : CFBrokerProxy)
    (instanceID operationData : String) :
    Except String ccv2.LastOperation × List APICall :=
  match client.GetServiceInstance operationData with
  | .error err => (.error err, [APICall.getServiceInstance operationData])
  | .ok serviceInstance =>
    (.ok { State := serviceInstance.LastOperation.State
           Description := serviceInstance.LastOperation.Description },
     [APICall.getServiceInstance operationData])

/-- `(broker *CFBrokerProxy) Update`: unconditionally return the empty
success spec, issuing no client call and leaving the receiver unchanged. -/
def CFBrokerProxy.Update (client : APIClient) (broker : CFBrokerProxy)
    (instanceID : String) (serviceDetails : brokerapi.UpdateDetails)
    (asyncAllowed : Bool) :
    Except String brokerapi.UpdateServiceSpec × CFBrokerProxy × List APICall :=
  (.ok { IsAsync := false, OperationData := "" }, broker, [])

/-- The body of the vendored ccv2 `CreateServiceKey` POST request
(`serviceKeyRequestBody`). -/
structure ServiceKeyRequestBody where
  ServiceInstanceGUID : String
  Name : String
  Parameters : JMap

/-- The ccv2 `CreateServiceKey` HTTP request as assembled by the vendored
client: its JSON body and the value of its `accepts_incomplete` query
parameter. -/
structure ServiceKeyCreateRequest where
  Body : ServiceKeyRequestBody
  AcceptsIncompleteQuery : String

/-- Request assembly of the vendored ccv2 `(client *Client) CreateServiceKey`
(service_key.go): the body carries the instance GUID, key name and
parameters, while the `accepts_incomplete` query value is the literal
`"false"` — the `acceptsIncomplete` argument is not used anywhere in the
request. -/
def CreateServiceKeyRequest (serviceInstanceGUID keyName : String)
    (acceptsIncomplete : Bool) (parameters : JMap) : ServiceKeyCreateRequest :=
  { Body := { ServiceInstanceGUID := serviceInstanceGUID
              Name := keyName
              Parameters := parameters }
    AcceptsIncompleteQuery := "false" }

/-! Theorems. -/

/-- Helper: every truncated description has at most 254 characters. -/
theorem sliceDescription_length_le (s : String) : (sliceDescription s).length ≤ 254 := by
  unfold sliceDescription
  split
  · show (String.mk (s.data.take 254)).length ≤ 254
    have : (String.mk (s.data.take 254)).length = (s.data.take 254).length := rfl
    rw [this, List.length_take]
    exact Nat.min_le_left _ _
  · omega

/-- Helper: every plan entry assembled by the broker's plan fetch has a
description of at most 254 characters. -/
theorem getServicePlans_description_le (client : APIClient) (guid : String) :
    ∀ plan ∈ (CFBrokerProxy.getServicePlans client guid).1,
      plan.Description.length ≤ 254 := by
  intro plan hplan
  simp only [CFBrokerProxy.getServicePlans, List.mem_map] at hplan
  obtain ⟨p, hp, rfl⟩ := hplan
  exact sliceDescription_length_le _

/-- C1: every service entry and plan entry assembled by ListCatalog has a
description of at most 254 characters, and `sliceDescription` returns the
first 254 characters when the input exceeds 254 characters and the input
unchanged otherwise. -/
theorem listCatalog_description_truncation
    (client : APIClient) (broker : CFBrokerProxy) (catalog : List brokerapi.Service)
    (hcache : broker.Catalog = none)
    (hok : (CFBrokerProxy.Services client broker).1 = .ok catalog) :
    (∀ svc ∈ catalog, svc.Description.length ≤ 254 ∧
       ∀ plan ∈ svc.Plans, plan.Description.length ≤ 254) ∧
    (∀ s : String, 254 < s.length → sliceDescription s = String.mk (s.data.take 254)) ∧
    (∀ s : String, s.length ≤ 254 → sliceDescription s = s) := by
  refine ⟨?_, ?_, ?_⟩
  · intro svc hsvc
    simp only [CFBrokerProxy.Services, hcache] at hok
    cases hGS : client.GetServices with
    | error e => rw [hGS] at hok; simp at hok
    | ok services =>
      rw [hGS] at hok
      simp only [Except.ok.injEq] at hok
      subst hok
      simp only [List.mem_map] at hsvc
      obtain ⟨s, hs, rfl⟩ := hsvc
      exact ⟨sliceDescription_length_le _, getServicePlans_description_le client s.GUID⟩
  · intro s hs
    unfold sliceDescription
    rw [if_pos hs]
  · intro s hs
    unfold sliceDescription
    rw [if_neg (by omega)]

/-- C2: a successful ListCatalog leaves the catalog cached, and every
subsequent ListCatalog call — under any client at all — returns the identical
catalog, leaves the state unchanged, and issues no client call. -/
theorem listCatalog_cached
    (client : APIClient) (broker b2 : CFBrokerProxy)
    (catalog : List brokerapi.Service) (calls : List APICall)
    (h : CFBrokerProxy.Services client broker = (.ok catalog, b2, calls))
    (client2 : APIClient) :
    CFBrokerProxy.Services client2 b2 = (.ok catalog, b2, []) := by
  have hb : b2.Catalog = some catalog := by
    cases hc : broker.Catalog with
    | some c =>
      simp only [CFBrokerProxy.Services, hc, Prod.mk.injEq, Except.ok.injEq] at h
      obtain ⟨h1, h2, -⟩ := h
      rw [← h2, hc, h1]
    | none =>
      simp only [CFBrokerProxy.Services, hc] at h
      cases hGS : client.GetServices with
      | error e => rw [hGS] at h; simp at h
      | ok services =>
        rw [hGS] at h
        simp only [Prod.mk.injEq, Except.ok.injEq] at h
        obtain ⟨h1, h2, -⟩ := h
        rw [← h2, h1]
  simp only [CFBrokerProxy.Services, hb]

/-- A stub control-API client: every list fetch succeeds with zero results
and every remaining call fails. -/
def stubClientBase : APIClient :=
  { GetServices := .ok []
    GetServicePlans := fun _ => .ok []
    GetSpaces := .ok []
    CreateServiceInstance := fun _ _ _ _ _ => .error "stub"
    DeleteServiceInstance := fun _ _ => .error "stub"
    GetServiceInstances := fun _ => .ok []
    CreateServiceKey := fun _ _ _ _ => .error "stub"
    GetServiceKeys := fun _ => .ok []
    DeleteServiceKey := fun _ _ => .error "stub"
    GetServiceInstance := fun _ => .error "stub" }

/-- A fresh broker: no cached catalog, no cached space identifier. -/
def brokerInit : CFBrokerProxy := { Catalog := none, SpaceGUID := "" }

/-- Stub client for the plan-fetch-failure scenario: one service `s1`,
and every plan fetch fails. -/
def planErrClient : APIClient :=
  { stubClientBase with
    GetServices := .ok [{ GUID := "s1", Label := "svc", Description := "d" }]
    GetServicePlans := fun _ => .error "plan fetch failed" }

/-- C3 (failing input): with one service and a failing plan fetch,
ListCatalog swallows the plan-fetch error: it returns a successful catalog
whose single entry has an empty plan list, instead of propagating the
error. -/
theorem listCatalog_swallows_plan_fetch_error :
    CFBrokerProxy.Services planErrClient brokerInit =
      (.ok [{ ID := "s1", Name := "svc", Description := "d", Bindable := true,
              PlanUpdatable := false, Plans := [] }],
       { Catalog := some [{ ID := "s1", Name := "svc", Description := "d",
                            Bindable := true, PlanUpdatable := false, Plans := [] }],
         SpaceGUID := "" },
       [APICall.getServices,
        APICall.getServicePlans { FType := "service_guid", Operator := ":", Values := ["s1"] }]) := by
  rfl

/-- C4: whenever Provision succeeds, the returned `IsAsync` is true exactly
when the created instance's last-operation state is "in progress", and the
returned `OperationData` is the created instance's GUID; the created instance
is the one returned by the client's instance-create call under the resolved
space identifier. -/
theorem provision_isAsync_iff
    (client : APIClient) (broker : CFBrokerProxy) (instanceID : String)
    (serviceDetails : brokerapi.ProvisionDetails) (asyncAllowed : Bool)
    (spec : brokerapi.ProvisionedServiceSpec) (b2 : CFBrokerProxy) (calls : List APICall)
    (h : CFBrokerProxy.Provision client broker instanceID serviceDetails asyncAllowed =
      (.ok spec, b2, calls)) :
    ∃ inst : ccv2.ServiceInstance,
      client.CreateServiceInstance instanceID serviceDetails.PlanID b2.SpaceGUID
        asyncAllowed [] = .ok inst ∧
      (spec.IsAsync = true ↔ inst.LastOperation.State = LastOperationInProgress) ∧
      spec.OperationData = inst.GUID := by
  unfold CFBrokerProxy.Provision at h
  split at h
  · cases hGS : client.GetSpaces with
    | error e => rw [hGS] at h; simp at h
    | ok availableSpace =>
      rw [hGS] at h
      cases availableSpace with
      | nil => simp at h
      | cons space0 rest =>
        simp only at h
        cases hCI : client.CreateServiceInstance instanceID serviceDetails.PlanID
            space0.GUID asyncAllowed [] with
        | error e => rw [hCI] at h; simp at h
        | ok serviceInstance =>
          rw [hCI] at h
          simp only [Prod.mk.injEq, Except.ok.injEq] at h
          obtain ⟨h1, h2, -⟩ := h
          refine ⟨serviceInstance, ?_, ?_, ?_⟩
          · rw [← h2]; exact hCI
          · rw [← h1]; simp [beq_iff_eq]
          · rw [← h1]
  · cases hCI : client.CreateServiceInstance instanceID serviceDetails.PlanID
        broker.SpaceGUID asyncAllowed [] with
    | error e => rw [hCI] at h; simp at h
    | ok serviceInstance =>
      rw [hCI] at h
      simp only [Prod.mk.injEq, Except.ok.injEq] at h
      obtain ⟨h1, h2, -⟩ := h
      refine ⟨serviceInstance, ?_, ?_, ?_⟩
      · rw [← h2]; exact hCI
      · rw [← h1]; simp [beq_iff_eq]
      · rw [← h1]

/-- C5: with no cached space identifier, Provision under a client reporting
zero spaces fails with the precondition error, issues only the space fetch
(no instance-create call) and leaves the broker unchanged; and whenever the
space list is nonempty the first space's GUID is cached. -/
theorem provision_no_space
    (client : APIClient) (broker : CFBrokerProxy) (instanceID : String)
    (serviceDetails : brokerapi.ProvisionDetails) (asyncAllowed : Bool)
    (hcache : broker.SpaceGUID = "") :
    (client.GetSpaces = .ok [] →
      CFBrokerProxy.Provision client broker instanceID serviceDetails asyncAllowed =
        (.error "Available spaces not found", broker, [APICall.getSpaces])) ∧
    (∀ (sp : ccv2.Space) (rest : List ccv2.Space),
      client.GetSpaces = .ok (sp :: rest) →
      ((CFBrokerProxy.Provision client broker instanceID serviceDetails asyncAllowed).2.1).SpaceGUID
        = sp.GUID) := by
  constructor
  · intro hGS
    simp [CFBrokerProxy.Provision, hcache, hGS]
  · intro sp rest hGS
    simp only [CFBrokerProxy.Provision, hcache, hGS]
    cases hCI : client.CreateServiceInstance instanceID serviceDetails.PlanID
        sp.GUID asyncAllowed [] with
    | error e => simp [hCI]
    | ok serviceInstance => simp [hCI]

/-- C6: when the name-filtered instance lookup returns zero matches, both
Deprovision and Bind fail with the not-found error and issue only the lookup
call — no delete and no key-create call. -/
theorem deprovision_bind_not_found
    (client : APIClient) (broker : CFBrokerProxy) (instanceID bindingID : String)
    (dDetails : brokerapi.DeprovisionDetails) (bDetails : brokerapi.BindDetails)
    (asyncAllowed : Bool)
    (h : client.GetServiceInstances
      { FType := "name", Operator := ":", Values := [instanceID] } = .ok []) :
    CFBrokerProxy.Deprovision client broker instanceID dDetails asyncAllowed =
      (.error ("Service instance with name " ++ instanceID ++ " not found"),
       [APICall.getServiceInstances { FType := "name", Operator := ":", Values := [instanceID] }]) ∧
    CFBrokerProxy.Bind client broker instanceID bindingID bDetails =
      (.error ("Service instance with name " ++ instanceID ++ " not found"),
       [APICall.getServiceInstances { FType := "name", Operator := ":", Values := [instanceID] }]) := by
  constructor
  · simp [CFBrokerProxy.Deprovision, CFBrokerProxy.findFirstServiceInstanceWithName, h]
  · simp [CFBrokerProxy.Bind, CFBrokerProxy.findFirstServiceInstanceWithName, h]

/-- C7: Unbind's key lookup depends only on `bindingID` (the `instanceID`
argument is ignored, so the lookup is not scoped to the instance); when zero
keys match the name filter it fails with the not-found error and issues no
delete call; and whenever at least one key matches it deletes exactly the
first match with `acceptsIncomplete = false` (synchronously). -/
theorem unbind_key_lookup
    (client : APIClient) (broker : CFBrokerProxy) (instanceID bindingID : String)
    (details : brokerapi.UnbindDetails) :
    (∀ otherInstanceID : String,
      CFBrokerProxy.Unbind client broker otherInstanceID bindingID details =
        CFBrokerProxy.Unbind client broker instanceID bindingID details) ∧
    (client.GetServiceKeys { FType := "name", Operator := ":", Values := [bindingID] } = .ok [] →
      CFBrokerProxy.Unbind client broker instanceID bindingID details =
        (.error ("Service key '" ++ bindingID ++ "' not found"),
         [APICall.getServiceKeys { FType := "name", Operator := ":", Values := [bindingID] }])) ∧
    (∀ (key0 : ccv2.ServiceKey) (rest : List ccv2.ServiceKey),
      client.GetServiceKeys { FType := "name", Operator := ":", Values := [bindingID] } =
        .ok (key0 :: rest) →
      (CFBrokerProxy.Unbind client broker instanceID bindingID details).2 =
        [APICall.getServiceKeys { FType := "name", Operator := ":", Values := [bindingID] },
         APICall.deleteServiceKey key0.GUID false]) := by
  refine ⟨fun _ => rfl, ?_, ?_⟩
  · intro hGK
    simp [CFBrokerProxy.Unbind, hGK]
  · intro key0 rest hGK
    simp only [CFBrokerProxy.Unbind, hGK]
    cases hDK : client.DeleteServiceKey key0.GUID false with
    | error e => simp [hDK]
    | ok k => simp [hDK]

/-- The instance returned by the concrete lookup client below. -/
def instStub : ccv2.ServiceInstance :=
  { GUID := "guid-1", Name := "inst-1", DashboardURL := "dash"
    LastOperation := { State := "in progress", Description := "working" } }

/-- The service key returned by the concrete create-key client below. -/
def keyStub : ccv2.ServiceKey :=
  { GUID := "key-guid-1", Name := "bind-1", ServiceInstanceGUID := "guid-1"
    Credentials := [] }

/-- Stub client under which Bind succeeds: the instance lookup finds
`instStub` and the key creation returns `keyStub`. -/
def bindClient : APIClient :=
  { stubClientBase with
    GetServiceInstances := fun _ => .ok [instStub]
    CreateServiceKey := fun _ _ _ _ => .ok keyStub }

/-- C8 (counterexample): Bind does pass `acceptsIncomplete = true` to the
client's key-create call, but the vendored client's assembled HTTP request
carries the hardcoded query value `accepts_incomplete=false` even then, so
the creation is not requested as incomplete/asynchronous. -/
theorem bind_accepts_incomplete_counterexample :
    (CFBrokerProxy.Bind bindClient brokerInit "inst-1" "bind-1" {}).2 =
      [APICall.getServiceInstances { FType := "name", Operator := ":", Values := ["inst-1"] },
       APICall.createServiceKey "guid-1" "bind-1" true []] ∧
    (CreateServiceKeyRequest "guid-1" "bind-1" true []).AcceptsIncompleteQuery = "false" ∧
    (CreateServiceKeyRequest "guid-1" "bind-1" true []).AcceptsIncompleteQuery ≠ "true" := by
  refine ⟨rfl, rfl, ?_⟩
  intro hcontra
  exact absurd hcontra (by decide)

/-- C8 (amended): Bind resolves the instance by name, calls the client's
key-create with the instance's GUID, the name `bindingID`, the flag
`acceptsIncomplete = true` and empty parameters, and returns exactly the
created key's credentials; the vendored client, however, ignores that flag
and always assembles the HTTP request with `accepts_incomplete=false`. -/
theorem bind_creates_key_amended
    (client : APIClient) (broker : CFBrokerProxy) (instanceID bindingID : String)
    (details : brokerapi.BindDetails)
    (inst : ccv2.ServiceInstance) (rest : List ccv2.ServiceInstance)
    (key : ccv2.ServiceKey)
    (hlookup : client.GetServiceInstances
      { FType := "name", Operator := ":", Values := [instanceID] } = .ok (inst :: rest))
    (hcreate : client.CreateServiceKey inst.GUID bindingID true [] = .ok key) :
    CFBrokerProxy.Bind client broker instanceID bindingID details =
      (.ok { Credentials := key.Credentials },
       [APICall.getServiceInstances { FType := "name", Operator := ":", Values := [instanceID] },
        APICall.createServiceKey inst.GUID bindingID true []]) ∧
    (∀ (g n : String) (ai : Bool) (p : JMap),
      CreateServiceKeyRequest g n ai p =
        { Body := { ServiceInstanceGUID := g, Name := n, Parameters := p }
          AcceptsIncompleteQuery := "false" }) := by
  constructor
  · simp [CFBrokerProxy.Bind, CFBrokerProxy.findFirstServiceInstanceWithName, hlookup, hcreate]
  · intro g n ai p
    rfl

/-- C9: Update returns the empty success spec, leaves the broker unchanged
and issues no client call, for every client, state and input. -/
theorem update_is_noop
    (client : APIClient) (broker : CFBrokerProxy) (instanceID : String)
    (serviceDetails : brokerapi.UpdateDetails) (asyncAllowed : Bool) :
    CFBrokerProxy.Update client broker instanceID serviceDetails asyncAllowed =
      (.ok { IsAsync := false, OperationData := "" }, broker, []) := rfl

/-- Stub client for the create-failure scenario: one available space, and
every instance-create call fails. -/
def createFailClient : APIClient :=
  { stubClientBase with
    GetSpaces := .ok [{ GUID := "sp-1" }]
    CreateServiceInstance := fun _ _ _ _ _ => .error "create failed" }

/-- C10 (counterexample): starting from an unset space cache, when the space
fetch succeeds with one space but the subsequent instance-create fails,
Provision returns an error and yet the space identifier has been cached —
so a cache field is assigned on an error path of the operation. -/
theorem provision_space_cached_despite_error :
    (CFBrokerProxy.Provision createFailClient brokerInit "i1"
      { PlanID := "p1" } true).1 = .error "create failed" ∧
    ((CFBrokerProxy.Provision createFailClient brokerInit "i1"
      { PlanID := "p1" } true).2.1).SpaceGUID = "sp-1" ∧
    brokerInit.SpaceGUID = "" :=
  ⟨rfl, rfl, rfl⟩

/-- C10 (amended): when ListCatalog returns an error its state — in
particular the catalog cache — is unchanged; when Provision's space fetch
fails, or finds zero spaces, its state — in particular the space cache — is
unchanged; but as soon as a nonempty space list is fetched, the first
space's GUID is cached, even when the subsequent instance-create fails and
Provision returns an error. -/
theorem caches_on_error_paths
    (client : APIClient) (broker : CFBrokerProxy) (instanceID : String)
    (serviceDetails : brokerapi.ProvisionDetails) (asyncAllowed : Bool) :
    (∀ e : String, (CFBrokerProxy.Services client broker).1 = .error e →
      (CFBrokerProxy.Services client broker).2.1 = broker) ∧
    (broker.SpaceGUID = "" → ∀ e : String, client.GetSpaces = .error e →
      (CFBrokerProxy.Provision client broker instanceID serviceDetails asyncAllowed).2.1
        = broker) ∧
    (broker.SpaceGUID = "" → client.GetSpaces = .ok [] →
      (CFBrokerProxy.Provision client broker instanceID serviceDetails asyncAllowed).2.1
        = broker) ∧
    (broker.SpaceGUID = "" → ∀ (sp : ccv2.Space) (rest : List ccv2.Space),
      client.GetSpaces = .ok (sp :: rest) →
      ((CFBrokerProxy.Provision client broker instanceID serviceDetails asyncAllowed).2.1).SpaceGUID
        = sp.GUID) := by
  refine ⟨?_, ?_, ?_, ?_⟩
  · intro e he
    cases hc : broker.Catalog with
    | some c => simp [CFBrokerProxy.Services, hc]
    | none =>
      cases hGS : client.GetServices with
      | error e2 => simp [CFBrokerProxy.Services, hc, hGS]
      | ok services => simp [CFBrokerProxy.Services, hc, hGS] at he
  · intro hcache e hGS
    simp [CFBrokerProxy.Provision, hcache, hGS]
  · intro hcache hGS
    simp [CFBrokerProxy.Provision, hcache, hGS]
  · intro hcache sp rest hGS
    simp only [CFBrokerProxy.Provision, hcache, hGS]
    cases hCI : client.CreateServiceInstance instanceID serviceDetails.PlanID
        sp.GUID asyncAllowed [] with
    | error e => simp [hCI]
    | ok serviceInstance => simp [hCI]

/-! Witnesses: each applies its claim's theorem at concrete inputs,
discharging the hypotheses by evaluation. -/

/-- A 300-character description, as in the spec's end-to-end example. -/
def longDescription : String := String.mk (List.replicate 300 'a')

/-- Stub client for the catalog-truncation scenario: one service with a
300-character description and one plan. -/
def truncClient : APIClient :=
  { stubClientBase with
    GetServices := .ok [{ GUID := "s1", Label := "svc", Description := longDescription }]
    GetServicePlans := fun _ =>
      .ok [{ GUID := "p1", Name := "plan1", ServiceGUID := "s1", Public := true,
             Description := "pd" }] }

/-- The catalog assembled by ListCatalog under `truncClient`. -/
def truncCatalog : List brokerapi.Service :=
  [{ ID := "s1", Name := "svc", Description := sliceDescription longDescription
     Bindable := true, PlanUpdatable := false
     Plans := [{ ID := "p1", Name := "plan1", Description := sliceDescription "pd" }] }]

/-- Witness for C1 at the spec's end-to-end example inputs. -/
theorem listCatalog_description_truncation_witness :
    (∀ svc ∈ truncCatalog, svc.Description.length ≤ 254 ∧
       ∀ plan ∈ svc.Plans, plan.Description.length ≤ 254) ∧
    (∀ s : String, 254 < s.length → sliceDescription s = String.mk (s.data.take 254)) ∧
    (∀ s : String, s.length ≤ 254 → sliceDescription s = s) :=
  listCatalog_description_truncation truncClient brokerInit truncCatalog rfl rfl

/-- Witness for C2: after a successful ListCatalog, the call on the updated
state returns the cached catalog with no client call. -/
theorem listCatalog_cached_witness :
    CFBrokerProxy.Services stubClientBase { Catalog := some [], SpaceGUID := "" } =
      (.ok [], { Catalog := some [], SpaceGUID := "" }, []) :=
  listCatalog_cached stubClientBase brokerInit { Catalog := some [], SpaceGUID := "" }
    [] [APICall.getServices] rfl stubClientBase

/-- Stub client whose instance-create succeeds with `instStub`. -/
def createOkClient : APIClient :=
  { stubClientBase with CreateServiceInstance := fun _ _ _ _ _ => .ok instStub }

/-- A broker with an already-cached space identifier. -/
def spaceBroker : CFBrokerProxy := { Catalog := none, SpaceGUID := "sp-1" }

/-- Witness for C4 at a concrete successful Provision. -/
theorem provision_isAsync_iff_witness :
    ∃ inst : ccv2.ServiceInstance,
      createOkClient.CreateServiceInstance "i1" "p1" "sp-1" true [] = .ok inst ∧
      (true = true ↔ inst.LastOperation.State = LastOperationInProgress) ∧
      "guid-1" = inst.GUID :=
  provision_isAsync_iff createOkClient spaceBroker "i1" { PlanID := "p1" } true
    { DashboardURL := "dash", IsAsync := true, OperationData := "guid-1" } spaceBroker
    [APICall.createServiceInstance "i1" "p1" "sp-1" true []] rfl

/-- Witness for C5: under the zero-space stub, Provision fails with the
precondition error after only the space fetch. -/
theorem provision_no_space_witness :
    CFBrokerProxy.Provision stubClientBase brokerInit "i1" { PlanID := "p1" } true =
      (.error "Available spaces not found", brokerInit, [APICall.getSpaces]) :=
  (provision_no_space stubClientBase brokerInit "i1" { PlanID := "p1" } true rfl).1 rfl

/-- Witness for C6: under the zero-instance stub, Deprovision and Bind both
fail with the not-found error after only the lookup call. -/
theorem deprovision_bind_not_found_witness :
    CFBrokerProxy.Deprovision stubClientBase brokerInit "i1" {} true =
      (.error ("Service instance with name " ++ "i1" ++ " not found"),
       [APICall.getServiceInstances { FType := "name", Operator := ":", Values := ["i1"] }]) ∧
    CFBrokerProxy.Bind stubClientBase brokerInit "i1" "b1" {} =
      (.error ("Service instance with name " ++ "i1" ++ " not found"),
       [APICall.getServiceInstances { FType := "name", Operator := ":", Values := ["i1"] }]) :=
  deprovision_bind_not_found stubClientBase brokerInit "i1" "b1" {} {} true rfl

/-- Witness for C7: under the zero-key stub, Unbind fails with the
not-found error after only the key fetch. -/
theorem unbind_key_lookup_witness :
    CFBrokerProxy.Unbind stubClientBase brokerInit "i1" "b1" {} =
      (.error ("Service key '" ++ "b1" ++ "' not found"),
       [APICall.getServiceKeys { FType := "name", Operator := ":", Values := ["b1"] }]) :=
  (unbind_key_lookup stubClientBase brokerInit "i1" "b1" {}).2.1 rfl

/-- Witness for the amended C8 at a concrete successful Bind. -/
theorem bind_creates_key_amended_witness :
    CFBrokerProxy.Bind bindClient brokerInit "inst-1" "bind-1" {} =
      (.ok { Credentials := [] },
       [APICall.getServiceInstances { FType := "name", Operator := ":", Values := ["inst-1"] },
        APICall.createServiceKey "guid-1" "bind-1" true []]) :=
  (bind_creates_key_amended bindClient brokerInit "inst-1" "bind-1" {} instStub [] keyStub
    rfl rfl).1

/-- Stub client whose service fetch fails. -/
def fetchFailClient : APIClient :=
  { stubClientBase with GetServices := .error "fetch failed" }

/-- Witness for the amended C10: a failed service fetch leaves the broker
state unchanged. -/
theorem caches_on_error_paths_witness :
    (CFBrokerProxy.Services fetchFailClient brokerInit).2.1 = brokerInit :=
  (caches_on_error_paths fetchFailClient brokerInit "i1" { PlanID := "p1" } true).1
    "fetch failed" rfl
